import Mathlib

/-
Verification development for the terminalController repository.

Shallow embedding of the core components described in spec.md:
  * the daemon IPC request handler        (src/daemon_server.py, `_handle_client`)
  * the session registry                  (src/config_manager.py)
  * the window cache of the macOS adapter (src/platform/macos_optimized.py)
  * the hotkey context-toggle orchestrator (src/hotkey_manager.py)

External effects (the OS, AppleScript, `psutil`, `json`, the wall clock)
are modelled as explicit oracle parameters; every embedded function is a
pure Lean translation of the corresponding Python function.
-/

set_option linter.unusedVariables false

namespace TC

/-! ## Python string primitives used by the source -/

/-- ASCII whitespace as recognised by CPython `str.strip()`. -/
def isPySpace (c : Char) : Bool :=
  c.toNat == 32 || (9 ≤ c.toNat && c.toNat ≤ 13)

/-- Python `s.strip()`: drop leading and trailing whitespace. -/
def pyStrip (s : String) : String :=
  String.mk (((s.toList.dropWhile isPySpace).reverse.dropWhile isPySpace).reverse)

/-- Whether `needle` is a prefix of `hay` (on character lists). -/
def listStartsWith : List Char → List Char → Bool
  | [], _ => true
  | _ :: _, [] => false
  | a :: as, b :: bs => a == b && listStartsWith as bs

/-- Whether `needle` occurs contiguously inside `hay`. -/
def listContainsSub (needle : List Char) : List Char → Bool
  | [] => listStartsWith needle []
  | c :: t => listStartsWith needle (c :: t) || listContainsSub needle t

/-- Python `sub in s` substring test on strings. -/
def strContains (s sub : String) : Bool :=
  listContainsSub sub.toList s.toList

/-- Python `s.lower()` on ASCII text (structural, so it evaluates in the
kernel; `Char.toLower` lower-cases exactly the ASCII letters). -/
def pyLower (s : String) : String :=
  String.mk (s.toList.map Char.toLower)

/-- Python truthiness of an optional string (`None` and `""` are falsy). -/
def pyTruthyStr : Option String → Bool
  | none => false
  | some s => s != ""

/-- Python `round(x)` to an integer: round-half-to-even (banker's rounding). -/
def pyRoundHalfEven (x : ℚ) : ℤ :=
  if x - (⌊x⌋ : ℚ) < 1/2 then ⌊x⌋
  else if (1 : ℚ)/2 < x - (⌊x⌋ : ℚ) then ⌊x⌋ + 1
  else if ⌊x⌋ % 2 = 0 then ⌊x⌋ else ⌊x⌋ + 1

/-- Python `round(x, 2)` on an exact rational. -/
def pyRound2 (x : ℚ) : ℚ :=
  (pyRoundHalfEven (x * 100) : ℚ) / 100

theorem pyRoundHalfEven_nonneg {x : ℚ} (hx : 0 ≤ x) : 0 ≤ pyRoundHalfEven x := by
  have hn : (0 : ℤ) ≤ ⌊x⌋ := Int.floor_nonneg.mpr hx
  unfold pyRoundHalfEven
  split
  · exact hn
  · split
    · omega
    · split
      · exact hn
      · omega

theorem pyRound2_nonneg {x : ℚ} (hx : 0 ≤ x) : 0 ≤ pyRound2 x := by
  have h1 : (0 : ℚ) ≤ x * 100 := by positivity
  have h2 : (0 : ℤ) ≤ pyRoundHalfEven (x * 100) := pyRoundHalfEven_nonneg h1
  unfold pyRound2
  have h3 : (0 : ℚ) ≤ (pyRoundHalfEven (x * 100) : ℚ) := by exact_mod_cast h2
  positivity

/-! ## Daemon IPC request handler (`daemon_server.py`, `DaemonServer._handle_client`) -/

/-- A JSON value, as produced by the external `json.loads` library call. -/
inductive JVal where
  | jnull
  | jbool (b : Bool)
  | jnum (q : ℚ)
  | jstr (s : String)
  | jarr (elems : List JVal)
  | jobj (fields : List (String × JVal))

/-- Python `dict.get(key)` on the field list of a JSON object
(`json.loads` yields objects with pairwise distinct keys). -/
def jObjGet (fields : List (String × JVal)) (key : String) : Option JVal :=
  (fields.find? (fun kv => kv.1 == key)).map (fun kv => kv.2)

/-- Outcome of `self.controller.execute_command(command)` run under
`redirect_stdout`: either a returned boolean together with the text captured
from stdout, or a raised exception with its message. -/
inductive ExecOutcome where
  | ok (success : Bool) (output : String)
  | exn (msg : String)

/-- External collaborators of `_handle_client`: the JSON library, the command
executor, and the text of the `AttributeError` raised when the parsed request
is not a dict or its `command` value is not a string. -/
structure DaemonEnv where
  jsonParse : String → Except String JVal
  execCmd : String → ExecOutcome
  attrErrText : JVal → String

/-- Mutable server statistics of `DaemonServer` touched by `_handle_client`,
plus the `running` flag read by the accept loop. -/
structure ServerState where
  running : Bool
  request_count : Nat
  total_execution_time : ℚ
deriving Repr, DecidableEq

/-- The JSON response dict written back to the client.  Optional fields model
presence of the corresponding key in the dict. -/
structure DaemonResponse where
  success : Bool
  error : Option String
  execution_time_ms : ℚ
  output : String
  message : Option String
  request_id : Option Nat
deriving Repr, DecidableEq

/-- `DaemonServer._send_error_response`: the failure envelope. -/
def errorResponse (errMsg : String) (executionTime : ℚ) : DaemonResponse :=
  { success := false
    error := some errMsg
    execution_time_ms := pyRound2 executionTime
    output := ""
    message := none
    request_id := none }

/-- The timed execution block of `_handle_client`: run the command through
the executor under output capture, then build either the normal envelope
(with statistics update) or, if the executor raised, the failure envelope. -/
def runCommand (env : DaemonEnv) (st : ServerState) (command : String)
    (elapsedMs : ℚ) : Option DaemonResponse × ServerState :=
  match env.execCmd command with
  | .ok succ out =>
    (some { success := succ
            error := none
            execution_time_ms := pyRound2 elapsedMs
            output := if out = "" then "" else pyStrip out
            message := some (if succ then "命令执行成功" else "命令执行失败")
            request_id := some (st.request_count + 1) },
     { st with
         request_count := st.request_count + 1
         total_execution_time := st.total_execution_time + elapsedMs })
  | .exn m =>
    (some (errorResponse ("Command execution error: " ++ m) elapsedMs), st)

/-- The part of `_handle_client` after a successful `json.loads`:
`request.get('command', '').strip()`, the empty-command check, and command
execution.  A non-dict request or a non-string `command` value raises an
`AttributeError`, caught by the outer handler which sends `Server error:`. -/
def handleParsed (env : DaemonEnv) (st : ServerState) (elapsedMs : ℚ) :
    JVal → Option DaemonResponse × ServerState
  | .jobj fields =>
    match (jObjGet fields "command").getD (.jstr "") with
    | .jstr raw =>
      if pyStrip raw = "" then
        (some (errorResponse "Empty command" 0), st)
      else
        runCommand env st (pyStrip raw) elapsedMs
    | v => (some (errorResponse ("Server error: " ++ env.attrErrText v) 0), st)
  | v => (some (errorResponse ("Server error: " ++ env.attrErrText v) 0), st)

/-- `DaemonServer._handle_client`.  `data` is the payload read from the
socket; `elapsedMs` is the wall-clock duration (in ms) measured around
`execute_command` by the two `time.perf_counter()` calls.  Returns the
response written back (`none` when the code returns without writing one)
and the updated server state. -/
def handleClient (env : DaemonEnv) (st : ServerState) (data : String)
    (elapsedMs : ℚ) : Option DaemonResponse × ServerState :=
  if data = "" then
    (none, st)
  else
    match env.jsonParse data with
    | .error e => (some (errorResponse ("Invalid JSON: " ++ e) 0), st)
    | .ok req => handleParsed env st elapsedMs req

/-! ### Concrete daemon scenarios -/

/-- A concrete JSON-library behaviour: parses the two payloads used in the
scenarios below and rejects everything else. -/
def sampleParse (s : String) : Except String JVal :=
  if s = "\x7b\"command\": \"\"\x7d" then .ok (.jobj [("command", .jstr "")])
  else if s = "\x7b\"command\": \"launch x\"\x7d" then
    .ok (.jobj [("command", .jstr "launch x")])
  else .error "Expecting value: line 1 column 1 (char 0)"

/-- Environment whose command executor returns `False` (a failed command)
with captured output, as `execute_command` does on a failed launch. -/
def envFailingExec : DaemonEnv :=
  { jsonParse := sampleParse
    execCmd := fun _ => .ok false "Failed to launch application"
    attrErrText := fun _ => "AttributeError" }

/-- Environment whose command executor raises an exception. -/
def envRaisingExec : DaemonEnv :=
  { jsonParse := sampleParse
    execCmd := fun _ => .exn "boom"
    attrErrText := fun _ => "AttributeError" }

/-- Environment whose command executor succeeds. -/
def envNeutral : DaemonEnv :=
  { jsonParse := sampleParse
    execCmd := fun _ => .ok true "Launched Safari"
    attrErrText := fun _ => "AttributeError" }

/-- Fresh server state right after startup. -/
def st0 : ServerState :=
  { running := true, request_count := 0, total_execution_time := 0 }

/-- C2 fails as stated: on an empty payload `_handle_client` returns without
writing any response at all (`if not data: return`), so the daemon does not
write back a response containing `success` and `execution_time_ms` for the
empty payload. -/
theorem C2_counterexample : handleClient envNeutral st0 "" 0 = (none, st0) := rfl

/-- C2 (amended): for every NONEMPTY payload delivered to the daemon —
including malformed JSON, non-JSON text, non-object JSON and a non-string
`command` value — the daemon writes back a response that contains a boolean
`success` field and a numeric `execution_time_ms` field ≥ 0; an empty payload
gets no response. -/
theorem C2_nonempty_payload_response (env : DaemonEnv) (st : ServerState)
    (data : String) (t : ℚ) (hdata : data ≠ "") (ht : 0 ≤ t) :
    ∃ r : DaemonResponse,
      (handleClient env st data t).1 = some r ∧ 0 ≤ r.execution_time_ms := by
  have h0 : (0 : ℚ) ≤ pyRound2 0 := pyRound2_nonneg le_rfl
  have hT : (0 : ℚ) ≤ pyRound2 t := pyRound2_nonneg ht
  unfold handleClient
  rw [if_neg hdata]
  cases hp : env.jsonParse data with
  | error e => exact ⟨_, rfl, h0⟩
  | ok req =>
    show ∃ r, (handleParsed env st t req).1 = some r ∧ (0 : ℚ) ≤ r.execution_time_ms
    cases req with
    | jnull => exact ⟨_, rfl, h0⟩
    | jbool b => exact ⟨_, rfl, h0⟩
    | jnum q => exact ⟨_, rfl, h0⟩
    | jstr s => exact ⟨_, rfl, h0⟩
    | jarr elems => exact ⟨_, rfl, h0⟩
    | jobj fields =>
      show ∃ r,
        (match (jObjGet fields "command").getD (.jstr "") with
          | .jstr raw =>
            if pyStrip raw = "" then
              (some (errorResponse "Empty command" 0), st)
            else
              runCommand env st (pyStrip raw) t
          | v =>
            (some (errorResponse ("Server error: " ++ env.attrErrText v) 0), st)).1
            = some r ∧ (0 : ℚ) ≤ r.execution_time_ms
      cases hcv : (jObjGet fields "command").getD (.jstr "") with
      | jnull => exact ⟨_, rfl, h0⟩
      | jbool b => exact ⟨_, rfl, h0⟩
      | jnum q => exact ⟨_, rfl, h0⟩
      | jarr elems => exact ⟨_, rfl, h0⟩
      | jobj fields2 => exact ⟨_, rfl, h0⟩
      | jstr raw =>
        show ∃ r,
          (if pyStrip raw = "" then (some (errorResponse "Empty command" 0), st)
           else runCommand env st (pyStrip raw) t).1 = some r
            ∧ (0 : ℚ) ≤ r.execution_time_ms
        by_cases hc : pyStrip raw = ""
        · rw [if_pos hc]
          exact ⟨_, rfl, h0⟩
        · rw [if_neg hc]
          unfold runCommand
          cases env.execCmd (pyStrip raw) with
          | ok succ out => exact ⟨_, rfl, hT⟩
          | exn m => exact ⟨_, rfl, hT⟩

/-- Closed witness for `C2_nonempty_payload_response` at the concrete
malformed payload `not json`. -/
theorem C2_nonempty_payload_response_witness :
    ∃ r : DaemonResponse,
      (handleClient envNeutral st0 "not json" 5).1 = some r
        ∧ 0 ≤ r.execution_time_ms :=
  C2_nonempty_payload_response envNeutral st0 "not json" 5
    (by decide) (by norm_num)

/-- C9: when the daemon receives a request whose command string is empty
after trimming, it responds with the failure envelope carrying
`success = false` and `error = "Empty command"`, leaves the server state
(including the `running` flag read by the accept loop) untouched, and the
outcome is independent of the command executor — the executor and the
managers behind it are never invoked. -/
theorem C9_empty_command_response (env : DaemonEnv) (st : ServerState)
    (data : String) (t : ℚ) (fields : List (String × JVal)) (raw : String)
    (hdata : data ≠ "")
    (hparse : env.jsonParse data = .ok (.jobj fields))
    (hcmd : jObjGet fields "command" = some (.jstr raw))
    (hstrip : pyStrip raw = "") :
    handleClient env st data t = (some (errorResponse "Empty command" 0), st)
    ∧ (errorResponse "Empty command" 0).success = false
    ∧ (errorResponse "Empty command" 0).error = some "Empty command"
    ∧ (handleClient env st data t).2.running = st.running
    ∧ ∀ e₁ e₂ : String → ExecOutcome,
        handleClient { env with execCmd := e₁ } st data t
          = handleClient { env with execCmd := e₂ } st data t := by
  have key : ∀ env' : DaemonEnv, env'.jsonParse = env.jsonParse →
      handleClient env' st data t = (some (errorResponse "Empty command" 0), st) := by
    intro env' hpar
    unfold handleClient
    rw [if_neg hdata, hpar, hparse]
    show handleParsed env' st t (.jobj fields)
      = (some (errorResponse "Empty command" 0), st)
    unfold handleParsed
    show (match (jObjGet fields "command").getD (.jstr "") with
          | .jstr raw =>
            if pyStrip raw = "" then (some (errorResponse "Empty command" 0), st)
            else runCommand env' st (pyStrip raw) t
          | v => (some (errorResponse ("Server error: " ++ env'.attrErrText v) 0), st))
      = (some (errorResponse "Empty command" 0), st)
    rw [hcmd]
    show (if pyStrip raw = "" then (some (errorResponse "Empty command" 0), st)
          else runCommand env' st (pyStrip raw) t)
      = (some (errorResponse "Empty command" 0), st)
    rw [if_pos hstrip]
  have hmain := key env rfl
  refine ⟨hmain, rfl, rfl, by rw [hmain], ?_⟩
  intro e₁ e₂
  rw [key { env with execCmd := e₁ } rfl, key { env with execCmd := e₂ } rfl]

/-- Closed witness for `C9_empty_command_response`: the spec scenario
`data = "{"command": ""}"` (braces elided here) with a fresh server state. -/
theorem C9_empty_command_response_witness :
    handleClient envNeutral st0 "\x7b\"command\": \"\"\x7d" 7
        = (some (errorResponse "Empty command" 0), st0)
      ∧ (errorResponse "Empty command" 0).success = false
      ∧ (errorResponse "Empty command" 0).error = some "Empty command"
      ∧ (handleClient envNeutral st0 "\x7b\"command\": \"\"\x7d" 7).2.running
          = st0.running
      ∧ ∀ e₁ e₂ : String → ExecOutcome,
          handleClient { envNeutral with execCmd := e₁ } st0
              "\x7b\"command\": \"\"\x7d" 7
            = handleClient { envNeutral with execCmd := e₂ } st0
              "\x7b\"command\": \"\"\x7d" 7 :=
  C9_empty_command_response envNeutral st0 "\x7b\"command\": \"\"\x7d" 7
    [("command", .jstr "")] "" (by decide) (by rfl) (by rfl) (by rfl)

/-- C5 fails as stated: a daemon request whose command execution reports
failure by RETURNING `False` (here: a failed launch printing
"Failed to launch application") is answered with the normal envelope — no
`error` key at all and the captured output, not the failure envelope with a
string `error` and empty `output` that the claim describes. -/
theorem C5_counterexample :
    ((handleClient envFailingExec st0 "\x7b\"command\": \"launch x\"\x7d" 3).1.map
        (fun r => (r.success, r.error, r.output, r.message, r.request_id)))
      = some (false, (none : Option String), "Failed to launch application",
              some "命令执行失败", some 1) := rfl

/-- C5 (amended): for every daemon request whose command execution RAISES an
exception, the response written back is the failure envelope: `success` is
false, `error` is the string "Command execution error: " followed by the
exception message, `execution_time_ms` is numeric (≥ 0 under a monotone
clock), and `output` is the empty string.  A command execution that merely
returns failure instead gets the normal envelope with `success = false`, a
`message`, the captured output and a `request_id`, and no `error` field. -/
theorem C5_exec_exception_failure_envelope (env : DaemonEnv) (st : ServerState)
    (data : String) (t : ℚ) (fields : List (String × JVal)) (raw m : String)
    (hdata : data ≠ "")
    (hparse : env.jsonParse data = .ok (.jobj fields))
    (hcmd : jObjGet fields "command" = some (.jstr raw))
    (hne : pyStrip raw ≠ "")
    (hexec : env.execCmd (pyStrip raw) = .exn m)
    (ht : 0 ≤ t) :
    handleClient env st data t
        = (some (errorResponse ("Command execution error: " ++ m) t), st)
      ∧ (errorResponse ("Command execution error: " ++ m) t).success = false
      ∧ (errorResponse ("Command execution error: " ++ m) t).error
          = some ("Command execution error: " ++ m)
      ∧ (errorResponse ("Command execution error: " ++ m) t).output = ""
      ∧ 0 ≤ (errorResponse ("Command execution error: " ++ m) t).execution_time_ms := by
  refine ⟨?_, rfl, rfl, rfl, pyRound2_nonneg ht⟩
  unfold handleClient
  rw [if_neg hdata, hparse]
  show handleParsed env st t (.jobj fields)
    = (some (errorResponse ("Command execution error: " ++ m) t), st)
  unfold handleParsed
  show (match (jObjGet fields "command").getD (.jstr "") with
        | .jstr raw =>
          if pyStrip raw = "" then (some (errorResponse "Empty command" 0), st)
          else runCommand env st (pyStrip raw) t
        | v => (some (errorResponse ("Server error: " ++ env.attrErrText v) 0), st))
    = (some (errorResponse ("Command execution error: " ++ m) t), st)
  rw [hcmd]
  show (if pyStrip raw = "" then (some (errorResponse "Empty command" 0), st)
        else runCommand env st (pyStrip raw) t)
    = (some (errorResponse ("Command execution error: " ++ m) t), st)
  rw [if_neg hne]
  unfold runCommand
  rw [hexec]

/-- Closed witness for `C5_exec_exception_failure_envelope`: a raising
executor on the payload `launch x`. -/
theorem C5_exec_exception_failure_envelope_witness :
    handleClient envRaisingExec st0 "\x7b\"command\": \"launch x\"\x7d" 3
        = (some (errorResponse "Command execution error: boom" 3), st0)
      ∧ (errorResponse "Command execution error: boom" 3).success = false
      ∧ (errorResponse "Command execution error: boom" 3).error
          = some "Command execution error: boom"
      ∧ (errorResponse "Command execution error: boom" 3).output = ""
      ∧ 0 ≤ (errorResponse "Command execution error: boom" 3).execution_time_ms :=
  C5_exec_exception_failure_envelope envRaisingExec st0
    "\x7b\"command\": \"launch x\"\x7d" 3 [("command", .jstr "launch x")]
    "launch x" "boom" (by decide) (by rfl) (by rfl) (by decide) (by rfl)
    (by norm_num)

/-! ## Session registry (`config_manager.py`) -/

/-- The JSON content of one `tc_interactive_<pid>.pid` record, as read back
by `get_active_interactive_sessions` (fields are accessed with `dict.get`,
hence optional). -/
structure SessionInfo where
  pid : Option ℤ
  window_id : Option String
  started_at : Option ℚ
  app_name : String
deriving Repr, DecidableEq

/-- The `psutil` facts consulted by the registry read: whether a pid exists,
and whether `psutil.Process(pid).cmdline()` can be read and contains an
argument mentioning `main_enhanced.py` (`false` also models
`NoSuchProcess` / `AccessDenied`). -/
structure ProcEnv where
  pidExists : ℤ → Bool
  cmdlineMatches : ℤ → Bool

/-- The per-record liveness check of `get_active_interactive_sessions`:
Python `if pid and psutil.pid_exists(pid)` (so a missing or zero pid fails)
followed by the command-line verification. -/
def sessionCheck (env : ProcEnv) (s : SessionInfo) : Bool :=
  match s.pid with
  | none => false
  | some p => (p != 0) && env.pidExists p && env.cmdlineMatches p

/-- `ConfigManager.get_active_interactive_sessions`: walk the stored
records; keep (and return) those passing the liveness check, unlink the
rest.  Returns the result list and the records remaining on disk. -/
def get_active_interactive_sessions (env : ProcEnv) :
    List SessionInfo → List SessionInfo × List SessionInfo
  | [] => ([], [])
  | s :: rest =>
    let r := get_active_interactive_sessions env rest
    if sessionCheck env s then (s :: r.1, s :: r.2) else r

/-- C3: a registry read returns exactly the stored records whose process
still exists and whose command line matches the expected program, deletes
every stored record failing the check, and consequently a record whose
process has terminated is neither returned nor left on disk by any read —
with no explicit cleanup call. -/
theorem C3_registry_self_healing (env : ProcEnv) (files : List SessionInfo) :
    (get_active_interactive_sessions env files).1
        = files.filter (sessionCheck env)
      ∧ (get_active_interactive_sessions env files).2
        = files.filter (sessionCheck env)
      ∧ (∀ s ∈ (get_active_interactive_sessions env files).1,
          sessionCheck env s = true)
      ∧ (∀ s : SessionInfo, ∀ p : ℤ, s.pid = some p → env.pidExists p = false →
          s ∉ (get_active_interactive_sessions env files).1
            ∧ s ∉ (get_active_interactive_sessions env files).2) := by
  have hfil : get_active_interactive_sessions env files
      = (files.filter (sessionCheck env), files.filter (sessionCheck env)) := by
    induction files with
    | nil => rfl
    | cons s rest ih =>
      unfold get_active_interactive_sessions
      rw [ih]
      by_cases h : sessionCheck env s = true
      · simp [h, List.filter_cons]
      · simp [List.filter_cons, Bool.eq_false_iff.mpr h]
  have hcheck : ∀ s ∈ files.filter (sessionCheck env), sessionCheck env s = true :=
    fun s hs => (List.mem_filter.mp hs).2
  have hdead : ∀ s : SessionInfo, ∀ p : ℤ, s.pid = some p →
      env.pidExists p = false → s ∉ files.filter (sessionCheck env) := by
    intro s p hp hdead hmem
    have hc := (List.mem_filter.mp hmem).2
    unfold sessionCheck at hc
    rw [hp] at hc
    simp only [Bool.and_eq_true] at hc
    rw [hdead] at hc
    exact Bool.false_ne_true hc.1.2
  rw [hfil]
  exact ⟨rfl, rfl, hcheck, fun s p hp hd => ⟨hdead s p hp hd, hdead s p hp hd⟩⟩

/-- The live session of the spec scenario: pid 100 in window W1. -/
def session100 : SessionInfo :=
  { pid := some 100, window_id := some "W1", started_at := some 10
    app_name := "terminal_controller_interactive" }

/-- A stale record for a terminated process, pid 200. -/
def session200 : SessionInfo :=
  { pid := some 200, window_id := some "W3", started_at := some 4
    app_name := "terminal_controller_interactive" }

/-- `psutil` facts: pid 100 is alive and runs `main_enhanced.py`; pid 200
is gone. -/
def procEnv1 : ProcEnv :=
  { pidExists := fun p => p == 100, cmdlineMatches := fun p => p == 100 }

/-- Closed witness for `C3_registry_self_healing`: with records for pids 100
(alive) and 200 (terminated), the read returns only pid 100, keeps only
pid 100 on disk, and pid 200 is neither returned nor kept. -/
theorem C3_registry_self_healing_witness :
    (get_active_interactive_sessions procEnv1 [session100, session200]).1
        = [session100]
      ∧ session200 ∉ (get_active_interactive_sessions procEnv1 [session100, session200]).1
      ∧ session200 ∉ (get_active_interactive_sessions procEnv1 [session100, session200]).2 :=
  have h := C3_registry_self_healing procEnv1 [session100, session200]
  have h4 := h.2.2.2 session200 200 rfl rfl
  ⟨by rw [h.1]; rfl, h4.1, h4.2⟩

/-! ## Association lists modelling Python dicts keyed by strings -/

/-- Python `d.get(k)` on a dict modelled as an association list. -/
def alistGet {α : Type} (l : List (String × α)) (k : String) : Option α :=
  (l.find? (fun kv => kv.1 == k)).map (fun kv => kv.2)

/-- Python `d[k] = v` (dict keys are unique, so replace the match). -/
def alistSet {α : Type} : List (String × α) → String → α → List (String × α)
  | [], k, v => [(k, v)]
  | (a, b) :: t, k, v => if a == k then (k, v) :: t else (a, b) :: alistSet t k v

/-- Python `del d[k]`. -/
def alistErase {α : Type} : List (String × α) → String → List (String × α)
  | [], _ => []
  | (a, b) :: t, k => if a == k then t else (a, b) :: alistErase t k

theorem alistGet_alistSet_self {α : Type} (l : List (String × α)) (k : String)
    (v : α) : alistGet (alistSet l k v) k = some v := by
  induction l with
  | nil => simp [alistGet, alistSet]
  | cons hd tl ih =>
    obtain ⟨a, b⟩ := hd
    by_cases h : a = k
    · simp [alistGet, alistSet, h]
    · simp only [alistSet, beq_iff_eq, h, if_false]
      simpa [alistGet, h] using ih

theorem alistGet_alistSet_ne {α : Type} (l : List (String × α)) (k k' : String)
    (v : α) (h : k ≠ k') : alistGet (alistSet l k v) k' = alistGet l k' := by
  induction l with
  | nil => simp [alistGet, alistSet, h]
  | cons hd tl ih =>
    obtain ⟨a, b⟩ := hd
    by_cases ha : a = k
    · simp [alistGet, alistSet, ha, h]
    · simp only [alistSet, beq_iff_eq, ha, if_false]
      by_cases ha' : a = k'
      · simp [alistGet, ha']
      · simpa [alistGet, ha'] using ih

/-! ## Window cache of the optimized macOS adapter
(`platform/macos_optimized.py`, `OptimizedMacOSAdapter`) -/

/-- `WindowInfo` from `platform/base.py`. -/
structure WindowInfo where
  window_id : String
  title : String
  app_name : String
  is_active : Bool
  is_minimized : Bool
  position : ℤ × ℤ := (0, 0)
  size : ℤ × ℤ := (0, 0)
deriving Repr, DecidableEq

/-- The two cache dicts of `OptimizedMacOSAdapter`: `_window_cache` and
`_cache_timestamps` (timestamps are `time.time()` values in seconds). -/
structure AdapterCache where
  window_cache : List (String × List WindowInfo)
  cache_timestamps : List (String × ℚ)
deriving Repr, DecidableEq

/-- `self._cache_timeout = 1.0` (seconds). -/
def cacheTimeout : ℚ := 1

/-- `OptimizedMacOSAdapter._is_cache_valid`. -/
def isCacheValid (st : AdapterCache) (appName : String) (currentTime : ℚ) :
    Bool :=
  (alistGet st.window_cache appName).isSome
    && decide (currentTime - (alistGet st.cache_timestamps appName).getD 0
                < cacheTimeout)

/-- `OptimizedMacOSAdapter._update_cache`. -/
def updateCache (st : AdapterCache) (appName : String) (ws : List WindowInfo)
    (timestamp : ℚ) : AdapterCache :=
  { window_cache := alistSet st.window_cache appName ws
    cache_timestamps := alistSet st.cache_timestamps appName timestamp }

/-- `OptimizedMacOSAdapter._clear_cache`: both dicts are emptied. -/
def clearCache (st : AdapterCache) : AdapterCache :=
  { window_cache := [], cache_timestamps := [] }

/-- The Window Automation Provider side of `get_app_windows`: availability of
the Cocoa API and the results the two enumeration backends would return at
the moment of the call. -/
structure ProviderEnv where
  hasCocoa : Bool
  cocoaWindows : String → List WindowInfo
  applescriptWindows : String → List WindowInfo

/-- `OptimizedMacOSAdapter.get_app_windows`.  Besides the result and the new
cache state, the third component counts how many enumeration calls went out
to the Window Automation Provider (Cocoa / AppleScript) during this call. -/
def get_app_windows (env : ProviderEnv) (st : AdapterCache) (appName : String)
    (currentTime : ℚ) : List WindowInfo × AdapterCache × Nat :=
  if isCacheValid st appName currentTime then
    ((alistGet st.window_cache appName).getD [], st, 0)
  else if env.hasCocoa then
    match env.cocoaWindows appName with
    | [] =>
      let ws := env.applescriptWindows appName
      (ws, updateCache st appName ws currentTime, 2)
    | w :: ws =>
      (w :: ws, updateCache st appName (w :: ws) currentTime, 1)
  else
    let ws := env.applescriptWindows appName
    (ws, updateCache st appName ws currentTime, 1)

/-- Result of an `osascript` invocation via `subprocess.run`; `none` models
`TimeoutExpired` or any other raised exception. -/
structure OsaResult where
  returncode : ℤ
  stdout : String
deriving Repr, DecidableEq

/-- `OptimizedMacOSAdapter.activate_window`: run the activation script;
`success` requires return code 0 and "success" in stdout, and only then is
the cache cleared. -/
def activate_window (osa : Option OsaResult) (st : AdapterCache) :
    Bool × AdapterCache :=
  match osa with
  | none => (false, st)
  | some r =>
    if r.returncode == 0 && strContains r.stdout "success" then
      (true, clearCache st)
    else
      (false, st)

/-- `OptimizedMacOSAdapter.minimize_window`: `success` requires return code 0
and "true" in stdout, and only then is the cache cleared. -/
def minimize_window (osa : Option OsaResult) (st : AdapterCache) :
    Bool × AdapterCache :=
  match osa with
  | none => (false, st)
  | some r =>
    if r.returncode == 0 && strContains r.stdout "true" then
      (true, clearCache st)
    else
      (false, st)

/-- `OptimizedMacOSAdapter.close_window`: `success` requires return code 0
and "true" in stdout, and only then is the cache cleared. -/
def close_window (osa : Option OsaResult) (st : AdapterCache) :
    Bool × AdapterCache :=
  match osa with
  | none => (false, st)
  | some r =>
    if r.returncode == 0 && strContains r.stdout "true" then
      (true, clearCache st)
    else
      (false, st)

/-- After any `get_app_windows` call, the returned list is exactly what the
cache now stores for that application. -/
theorem get_app_windows_mem (env : ProviderEnv) (st : AdapterCache)
    (app : String) (t : ℚ) :
    alistGet (get_app_windows env st app t).2.1.window_cache app
      = some (get_app_windows env st app t).1 := by
  unfold get_app_windows
  by_cases hv : isCacheValid st app t = true
  · rw [if_pos hv]
    unfold isCacheValid at hv
    simp only [Bool.and_eq_true] at hv
    obtain ⟨ws, hws⟩ := Option.isSome_iff_exists.mp hv.1
    simp [hws]
  · rw [if_neg hv]
    by_cases hc : env.hasCocoa = true
    · rw [if_pos hc]
      cases env.cocoaWindows app with
      | nil => simpa [updateCache] using alistGet_alistSet_self _ _ _
      | cons w ws => simpa [updateCache] using alistGet_alistSet_self _ _ _
    · rw [if_neg hc]
      simpa [updateCache] using alistGet_alistSet_self _ _ _

/-- A `get_app_windows` call finding a cache entry younger than the TTL
serves it unchanged with zero provider queries. -/
theorem get_app_windows_hit (env : ProviderEnv) (st : AdapterCache)
    (app : String) (t : ℚ) (r : List WindowInfo)
    (hr : alistGet st.window_cache app = some r)
    (ht : t - (alistGet st.cache_timestamps app).getD 0 < cacheTimeout) :
    get_app_windows env st app t = (r, st, 0) := by
  have hv : isCacheValid st app t = true := by
    unfold isCacheValid
    rw [hr]
    simpa using ht
  unfold get_app_windows
  rw [if_pos hv, hr]
  rfl

/-- A `get_app_windows` call on an invalid entry queries the provider at
least once and refreshes the entry with the fetched list and timestamp. -/
theorem get_app_windows_miss (env : ProviderEnv) (st : AdapterCache)
    (app : String) (t : ℚ)
    (hv : isCacheValid st app t = false) :
    1 ≤ (get_app_windows env st app t).2.2
    ∧ alistGet (get_app_windows env st app t).2.1.window_cache app
        = some (get_app_windows env st app t).1
    ∧ alistGet (get_app_windows env st app t).2.1.cache_timestamps app
        = some t := by
  unfold get_app_windows
  rw [if_neg (by simp [hv])]
  by_cases hc : env.hasCocoa = true
  · rw [if_pos hc]
    cases env.cocoaWindows app with
    | nil =>
      refine ⟨by norm_num, ?_, ?_⟩ <;>
        simpa [updateCache] using alistGet_alistSet_self _ _ _
    | cons w ws =>
      refine ⟨by norm_num, ?_, ?_⟩ <;>
        simpa [updateCache] using alistGet_alistSet_self _ _ _
  · rw [if_neg hc]
    refine ⟨by norm_num, ?_, ?_⟩ <;>
      simpa [updateCache] using alistGet_alistSet_self _ _ _

/-- A concrete Safari window for the cache scenarios. -/
def wSafari : WindowInfo :=
  { window_id := "101", title := "Page", app_name := "Safari"
    is_active := true, is_minimized := false }

/-- A cache state holding one entry for Safari, fetched at time 0. -/
def cacheSt1 : AdapterCache :=
  { window_cache := [("Safari", [wSafari])], cache_timestamps := [("Safari", 0)] }

/-- A provider environment whose enumerations find no windows. -/
def provEmpty : ProviderEnv :=
  { hasCocoa := true, cocoaWindows := fun _ => []
    applescriptWindows := fun _ => [] }

/-- C4 fails as stated: an `activate_window` call whose AppleScript reports
failure ("notfound") does NOT drop the cache.  The call returns `False`, the
cache still holds the entry created before the call, and a `get_app_windows`
within the TTL right after the call serves that pre-call entry with zero
provider queries. -/
theorem C4_counterexample :
    activate_window (some { returncode := 0, stdout := "notfound" }) cacheSt1
        = (false, cacheSt1)
      ∧ get_app_windows provEmpty
          (activate_window (some { returncode := 0, stdout := "notfound" })
            cacheSt1).2 "Safari" (1/2)
        = ([wSafari], cacheSt1, 0) := by
  refine ⟨rfl, ?_⟩
  refine get_app_windows_hit provEmpty _ "Safari" (1/2) [wSafari] rfl ?_
  have hts : alistGet (activate_window
      (some { returncode := 0, stdout := "notfound" }) cacheSt1).2.cache_timestamps
      "Safari" = some 0 := rfl
  rw [hts]
  show (1 : ℚ)/2 - 0 < 1
  norm_num

/-- C4 (amended): each window-mutating adapter operation (activate, minimize,
close) drops the ENTIRE cache — both window lists and timestamps — exactly
when the mutation reports success; when it reports failure (including a
script timeout), the cache is left untouched. -/
theorem C4_mutation_clears_cache (osa : Option OsaResult) (st : AdapterCache) :
    (activate_window osa st).2
        = (if (activate_window osa st).1 then clearCache st else st)
      ∧ (minimize_window osa st).2
        = (if (minimize_window osa st).1 then clearCache st else st)
      ∧ (close_window osa st).2
        = (if (close_window osa st).1 then clearCache st else st) := by
  cases osa with
  | none => exact ⟨rfl, rfl, rfl⟩
  | some r =>
    refine ⟨?_, ?_, ?_⟩ <;>
      simp only [activate_window, minimize_window, close_window] <;>
      split <;> rfl

/-- C8: after any `get_app_windows` call, a second call whose time lies
within the TTL of the entry's timestamp returns the identical cached list
with zero provider queries and an unchanged cache, while a call made once
the entry's age reaches the TTL queries the provider again (at least one
enumeration) and refreshes the entry with the newly fetched list and the
new timestamp. -/
theorem C8_cache_ttl (env₁ env₂ env₃ : ProviderEnv) (st : AdapterCache)
    (app : String) (t₀ t₁ t₂ : ℚ) :
    (t₁ - (alistGet (get_app_windows env₁ st app t₀).2.1.cache_timestamps app).getD 0
        < cacheTimeout →
      get_app_windows env₂ (get_app_windows env₁ st app t₀).2.1 app t₁
        = ((get_app_windows env₁ st app t₀).1,
           (get_app_windows env₁ st app t₀).2.1, 0))
    ∧ (cacheTimeout
        ≤ t₂ - (alistGet (get_app_windows env₁ st app t₀).2.1.cache_timestamps app).getD 0 →
      1 ≤ (get_app_windows env₃ (get_app_windows env₁ st app t₀).2.1 app t₂).2.2
      ∧ alistGet (get_app_windows env₃ (get_app_windows env₁ st app t₀).2.1 app t₂).2.1.window_cache app
          = some (get_app_windows env₃ (get_app_windows env₁ st app t₀).2.1 app t₂).1
      ∧ alistGet (get_app_windows env₃ (get_app_windows env₁ st app t₀).2.1 app t₂).2.1.cache_timestamps app
          = some t₂) := by
  constructor
  · intro hlt
    exact get_app_windows_hit env₂ _ app t₁ _ (get_app_windows_mem env₁ st app t₀) hlt
  · intro hge
    have hdec : decide (t₂ -
        (alistGet (get_app_windows env₁ st app t₀).2.1.cache_timestamps app).getD 0
          < cacheTimeout) = false := by
      simp only [decide_eq_false_iff_not, not_lt]
      exact hge
    have hinv : isCacheValid (get_app_windows env₁ st app t₀).2.1 app t₂ = false := by
      unfold isCacheValid
      rw [hdec, Bool.and_false]
    exact get_app_windows_miss env₃ _ app t₂ hinv

/-- A provider environment that finds exactly one Safari window via Cocoa. -/
def provSafari : ProviderEnv :=
  { hasCocoa := true, cocoaWindows := fun _ => [wSafari]
    applescriptWindows := fun _ => [] }

/-- An initially empty adapter cache. -/
def cacheSt0 : AdapterCache := { window_cache := [], cache_timestamps := [] }

/-- Closed witness for `C8_cache_ttl`: first call at time 0, a hit at
time 1/2 and a refresh at time 5. -/
theorem C8_cache_ttl_witness :
    get_app_windows provSafari (get_app_windows provSafari cacheSt0 "Safari" 0).2.1 "Safari" (1/2)
        = ((get_app_windows provSafari cacheSt0 "Safari" 0).1,
           (get_app_windows provSafari cacheSt0 "Safari" 0).2.1, 0)
      ∧ (1 ≤ (get_app_windows provEmpty (get_app_windows provSafari cacheSt0 "Safari" 0).2.1 "Safari" 5).2.2
        ∧ alistGet (get_app_windows provEmpty (get_app_windows provSafari cacheSt0 "Safari" 0).2.1 "Safari" 5).2.1.window_cache "Safari"
            = some (get_app_windows provEmpty (get_app_windows provSafari cacheSt0 "Safari" 0).2.1 "Safari" 5).1
        ∧ alistGet (get_app_windows provEmpty (get_app_windows provSafari cacheSt0 "Safari" 0).2.1 "Safari" 5).2.1.cache_timestamps "Safari"
            = some 5) :=
  ⟨(C8_cache_ttl provSafari provSafari provEmpty cacheSt0 "Safari" 0 (1/2) 5).1
      (by
        have h : alistGet
            (get_app_windows provSafari cacheSt0 "Safari" 0).2.1.cache_timestamps
            "Safari" = some 0 := rfl
        rw [h]
        show (1 : ℚ)/2 - 0 < 1
        norm_num),
   (C8_cache_ttl provSafari provSafari provEmpty cacheSt0 "Safari" 0 (1/2) 5).2
      (by
        have h : alistGet
            (get_app_windows provSafari cacheSt0 "Safari" 0).2.1.cache_timestamps
            "Safari" = some 0 := rfl
        rw [h]
        show (1 : ℚ) ≤ 5 - 0
        norm_num)⟩

/-! ## Hotkey context-toggle orchestrator (`hotkey_manager.py`) -/

/-- The fields of `AppConfig` (`config_manager.py`) read by the
orchestrator. -/
structure AppConfig where
  name : String
  type : String
deriving Repr, DecidableEq

/-- `ConfigManager._last_used`: a Python dict, modelled extensionally as a
partial map from keys to stored window ids / app names. -/
def LastUsed : Type := String → Option String

/-- `ConfigManager.get_last_used_window` (`dict.get`). -/
def get_last_used_window (lu : LastUsed) (appId : String) : Option String :=
  lu appId

/-- `ConfigManager.set_last_used_window` (`dict.__setitem__` plus save). -/
def set_last_used_window (lu : LastUsed) (appId windowId : String) : LastUsed :=
  fun k => if k == appId then some windowId else lu k

/-- `ConfigManager.get_tc_context_window`. -/
def get_tc_context_window (lu : LastUsed) : Option String :=
  lu "_tc_context_window"

/-- `ConfigManager.clear_tc_context_window` (`if key in dict: del`). -/
def clear_tc_context_window (lu : LastUsed) : LastUsed :=
  if (lu "_tc_context_window").isSome then
    fun k => if k == "_tc_context_window" then none else lu k
  else lu

/-- The external world consulted during one hotkey press, frozen for the
duration of the callback: the focused window, the visible windows, window
lookup and activation (Window Automation Provider), configuration, and the
result of the session-registry read. -/
structure HotkeyEnv where
  activeWindow : Option WindowInfo
  allWindows : List WindowInfo
  findFast : String → Option WindowInfo
  activateOk : String → Bool
  availableTerminals : List String
  appConfigs : String → Option AppConfig
  appWindows : String → List WindowInfo
  sessions : List SessionInfo
  defaultTerminal : String
  rememberLastUsed : Bool
  terminalRunning : Bool
  launchOk : Bool

/-- The observable actions of one hotkey press, in execution order. -/
inductive Ev where
  | savePrev (windowId appName : String)
  | querySessions
  | activate (windowId : String)
  | queryHome
  | findById (windowId : String)
  | clearHome
  | checkRunning (appId : String)
  | focusRecent (appId : String)
  | launchTerminal
deriving Repr, DecidableEq

/-- The common terminal program names hard-coded in
`HotkeyManager._is_terminal_window`. -/
def terminalNames : List String :=
  ["terminal", "iterm", "konsole", "gnome-terminal",
   "xfce4-terminal", "cmd", "powershell", "windows terminal"]

/-- `HotkeyManager._is_terminal_window`: capability-set match against the
configured terminal applications, then the fallback name list. -/
def is_terminal_window (env : HotkeyEnv) (w : WindowInfo) : Bool :=
  env.availableTerminals.any (fun tid =>
    match env.appConfigs tid with
    | some cfg => strContains (pyLower w.app_name) (pyLower cfg.name)
    | none => false)
  || terminalNames.any (fun n => strContains (pyLower w.app_name) n)

/-- `WindowManager.find_window_by_id`: the adapter's fast lookup first, then
a scan over all windows. -/
def find_window_by_id (env : HotkeyEnv) (windowId : String) :
    Option WindowInfo :=
  match env.findFast windowId with
  | some w => some w
  | none => env.allWindows.find? (fun w => w.window_id == windowId)

/-- `HotkeyManager._save_previous_window`: store the window id under
`_previous_window` and the application name under `_previous_app`. -/
def save_previous_window (lu : LastUsed) (w : WindowInfo) : LastUsed :=
  set_last_used_window (set_last_used_window lu "_previous_window" w.window_id)
    "_previous_app" w.app_name

/-- The fallback chain of `WindowManager.focus_most_recent_window` after the
last-used record: config lookup, enumeration, then the preference chain
first-active / first-non-minimized / first window. -/
def focus_most_recent_fallback (env : HotkeyEnv) (lu : LastUsed)
    (appId : String) : Bool × LastUsed :=
  match env.appConfigs appId with
  | none => (false, lu)
  | some cfg =>
    match env.appWindows cfg.name with
    | [] => (false, lu)
    | w0 :: rest =>
      match (w0 :: rest).find? (fun w => w.is_active) with
      | some w => (env.activateOk w.window_id, lu)
      | none =>
        match (w0 :: rest).find? (fun w => !w.is_minimized) with
        | some w =>
          if env.activateOk w.window_id && env.rememberLastUsed then
            (true, set_last_used_window lu appId w.window_id)
          else (env.activateOk w.window_id, lu)
        | none =>
          if env.activateOk w0.window_id && env.rememberLastUsed then
            (true, set_last_used_window lu appId w0.window_id)
          else (env.activateOk w0.window_id, lu)

/-- `WindowManager.focus_most_recent_window`. -/
def focus_most_recent_window (env : HotkeyEnv) (lu : LastUsed)
    (appId : String) : Bool × LastUsed :=
  if env.rememberLastUsed then
    match get_last_used_window lu appId with
    | some lastId =>
      if lastId != "" then
        if (find_window_by_id env lastId).isSome then
          if env.activateOk lastId then (true, lu)
          else focus_most_recent_fallback env lu appId
        else focus_most_recent_fallback env lu appId
      else focus_most_recent_fallback env lu appId
    | none => focus_most_recent_fallback env lu appId
  else focus_most_recent_fallback env lu appId

/-- `session_info.get('started_at', 0)`. -/
def startedKey (s : SessionInfo) : ℚ := s.started_at.getD 0

/-- Python `max(sessions, key=lambda s: s.get('started_at', 0))` on a
nonempty list: the first element among those with the maximal key. -/
def pyMaxByStarted (best : SessionInfo) : List SessionInfo → SessionInfo
  | [] => best
  | s :: rest =>
    pyMaxByStarted (if startedKey best < startedKey s then s else best) rest

/-- Priorities 2 and 3 of `_smart_focus_terminal`: focus the default
terminal's most recent window if the terminal is running, else (or on
failure) launch a new terminal. -/
def sft_default_terminal (env : HotkeyEnv) (lu : LastUsed) (tr : List Ev) :
    Bool × LastUsed × List Ev :=
  if env.terminalRunning then
    if (focus_most_recent_window env lu env.defaultTerminal).1 then
      (true, (focus_most_recent_window env lu env.defaultTerminal).2,
       tr ++ [Ev.checkRunning env.defaultTerminal,
              Ev.focusRecent env.defaultTerminal])
    else
      (env.launchOk, (focus_most_recent_window env lu env.defaultTerminal).2,
       tr ++ [Ev.checkRunning env.defaultTerminal,
              Ev.focusRecent env.defaultTerminal, Ev.launchTerminal])
  else
    (env.launchOk, lu,
     tr ++ [Ev.checkRunning env.defaultTerminal, Ev.launchTerminal])

/-- Priority 1 of `_smart_focus_terminal`: the recorded TC context (home)
window — activate it if it still exists and is terminal-like, clear it if it
no longer qualifies, and otherwise fall through to the default terminal. -/
def sft_home_window (env : HotkeyEnv) (lu : LastUsed) (tr : List Ev) :
    Bool × LastUsed × List Ev :=
  match get_tc_context_window lu with
  | none => sft_default_terminal env lu (tr ++ [Ev.queryHome])
  | some hid =>
    if hid == "" then sft_default_terminal env lu (tr ++ [Ev.queryHome])
    else
      match find_window_by_id env hid with
      | some w =>
        if is_terminal_window env w then
          if env.activateOk hid then
            (true, lu, tr ++ [Ev.queryHome, Ev.findById hid, Ev.activate hid])
          else
            sft_default_terminal env lu
              (tr ++ [Ev.queryHome, Ev.findById hid, Ev.activate hid])
        else
          sft_default_terminal env (clear_tc_context_window lu)
            (tr ++ [Ev.queryHome, Ev.findById hid, Ev.clearHome])
      | none =>
        sft_default_terminal env (clear_tc_context_window lu)
          (tr ++ [Ev.queryHome, Ev.findById hid, Ev.clearHome])

/-- `HotkeyManager._smart_focus_terminal`: the priority chain — live
interactive sessions first, then the recorded home window, then the default
terminal, then a cold launch; each step short-circuits on success. -/
def smart_focus_terminal (env : HotkeyEnv) (lu : LastUsed) :
    Bool × LastUsed × List Ev :=
  match env.sessions with
  | [] => sft_home_window env lu [Ev.querySessions]
  | s :: rest =>
    match (pyMaxByStarted s rest).window_id with
    | some wid =>
      if wid != "" then
        if env.activateOk wid then
          (true, lu, [Ev.querySessions, Ev.activate wid])
        else
          sft_home_window env lu [Ev.querySessions, Ev.activate wid]
      else sft_home_window env lu [Ev.querySessions]
    | none => sft_home_window env lu [Ev.querySessions]

/-- The same-application fallback loop of `_return_to_previous_window`:
activate the first non-minimized window of the recorded application whose
activation succeeds, updating the stored `_previous_window` id. -/
def try_same_app_window (env : HotkeyEnv) (lu : LastUsed) (appName : String) :
    List WindowInfo → List Ev → Bool × LastUsed × List Ev
  | [], tr => (false, lu, tr)
  | w :: rest, tr =>
    if w.app_name == appName && !w.is_minimized then
      if env.activateOk w.window_id then
        (true, set_last_used_window lu "_previous_window" w.window_id,
         tr ++ [Ev.activate w.window_id])
      else try_same_app_window env lu appName rest (tr ++ [Ev.activate w.window_id])
    else try_same_app_window env lu appName rest tr

/-- The `if previous_app_name:` fallback of `_return_to_previous_window`. -/
def return_to_previous_fallback (env : HotkeyEnv) (lu : LastUsed)
    (prevApp : Option String) (tr : List Ev) : Bool × LastUsed × List Ev :=
  match prevApp with
  | none => (false, lu, tr)
  | some a =>
    if a == "" then (false, lu, tr)
    else try_same_app_window env lu a env.allWindows tr

/-- The window-still-matches test of `_return_to_previous_window`: the
stored id resolves to a live window whose application name equals the
stored one (Python `window and window.app_name == previous_app_name`). -/
def rtp_matched (env : HotkeyEnv) (lu : LastUsed) (prevId : String) : Bool :=
  match find_window_by_id env prevId, get_last_used_window lu "_previous_app" with
  | some w, some a => w.app_name == a
  | _, _ => false

/-- `HotkeyManager._return_to_previous_window`. -/
def return_to_previous_window (env : HotkeyEnv) (lu : LastUsed) :
    Bool × LastUsed × List Ev :=
  match get_last_used_window lu "_previous_window" with
  | none => (false, lu, [])
  | some prevId =>
    if prevId == "" then (false, lu, [])
    else
      if rtp_matched env lu prevId then
        if env.activateOk prevId then (true, lu, [Ev.activate prevId])
        else
          return_to_previous_fallback env lu
            (get_last_used_window lu "_previous_app") [Ev.activate prevId]
      else
        return_to_previous_fallback env lu
          (get_last_used_window lu "_previous_app") []

/-- The activation loop over active candidates in
`_find_best_non_terminal_window`. -/
def try_active_windows (env : HotkeyEnv) :
    List WindowInfo → List Ev → Option WindowInfo × List Ev
  | [], tr => (none, tr)
  | w :: rest, tr =>
    if w.is_active then
      if env.activateOk w.window_id then
        (some w, tr ++ [Ev.activate w.window_id])
      else try_active_windows env rest (tr ++ [Ev.activate w.window_id])
    else try_active_windows env rest tr

/-- `HotkeyManager._find_best_non_terminal_window`: filter out terminal-like
and minimized windows, prefer an active candidate, else the first one;
record the activated window as the new previous window. -/
def find_best_non_terminal_window (env : HotkeyEnv) (lu : LastUsed) :
    Bool × LastUsed × List Ev :=
  match env.allWindows.filter
      (fun w => !is_terminal_window env w && !w.is_minimized) with
  | [] => (false, lu, [])
  | c0 :: rest =>
    match try_active_windows env (c0 :: rest) [] with
    | (some w, tr) => (true, save_previous_window lu w, tr)
    | (none, tr) =>
      if env.activateOk c0.window_id then
        (true, save_previous_window lu c0, tr ++ [Ev.activate c0.window_id])
      else (false, lu, tr ++ [Ev.activate c0.window_id])

/-- `HotkeyManager._smart_return_from_terminal`: the previous window first,
then the best non-terminal window. -/
def smart_return_from_terminal (env : HotkeyEnv) (lu : LastUsed) :
    Bool × LastUsed × List Ev :=
  if (return_to_previous_window env lu).1 then return_to_previous_window env lu
  else
    ((find_best_non_terminal_window env (return_to_previous_window env lu).2.1).1,
     (find_best_non_terminal_window env (return_to_previous_window env lu).2.1).2.1,
     (return_to_previous_window env lu).2.2
       ++ (find_best_non_terminal_window env
             (return_to_previous_window env lu).2.1).2.2)

/-- The terminal hotkey callback created by
`HotkeyManager._create_terminal_callback`: classify the focused window and
dispatch to smart return or smart focus, saving the focused window as the
previous window first in the non-terminal case. -/
def terminal_callback (env : HotkeyEnv) (lu : LastUsed) :
    Bool × LastUsed × List Ev :=
  match env.activeWindow with
  | some w =>
    if is_terminal_window env w then
      smart_return_from_terminal env lu
    else
      ((smart_focus_terminal env (save_previous_window lu w)).1,
       (smart_focus_terminal env (save_previous_window lu w)).2.1,
       Ev.savePrev w.window_id w.app_name
         :: (smart_focus_terminal env (save_previous_window lu w)).2.2)
  | none => smart_focus_terminal env lu

/-! ### Orchestrator lemmas -/

/-- The default-terminal step only appends to the trace it is given. -/
theorem sft_default_terminal_trace (env : HotkeyEnv) (lu : LastUsed)
    (tr : List Ev) :
    ∃ t', (sft_default_terminal env lu tr).2.2 = tr ++ t' := by
  unfold sft_default_terminal
  by_cases h : env.terminalRunning = true
  · rw [if_pos h]
    by_cases h2 : (focus_most_recent_window env lu env.defaultTerminal).1 = true
    · rw [if_pos h2]
      exact ⟨_, rfl⟩
    · rw [if_neg h2]
      exact ⟨_, rfl⟩
  · rw [if_neg h]
    exact ⟨_, rfl⟩

/-- The home-window step only appends to the trace it is given. -/
theorem sft_home_window_trace (env : HotkeyEnv) (lu : LastUsed)
    (tr : List Ev) :
    ∃ t', (sft_home_window env lu tr).2.2 = tr ++ t' := by
  unfold sft_home_window
  cases hh : get_tc_context_window lu with
  | none =>
    obtain ⟨t', ht'⟩ := sft_default_terminal_trace env lu (tr ++ [Ev.queryHome])
    exact ⟨[Ev.queryHome] ++ t', by rw [ht', List.append_assoc]⟩
  | some hid =>
    dsimp only
    by_cases hemp : (hid == "") = true
    · rw [if_pos hemp]
      obtain ⟨t', ht'⟩ := sft_default_terminal_trace env lu (tr ++ [Ev.queryHome])
      exact ⟨[Ev.queryHome] ++ t', by rw [ht', List.append_assoc]⟩
    · rw [if_neg hemp]
      cases hf : find_window_by_id env hid with
      | some w =>
        dsimp only
        by_cases hterm : is_terminal_window env w = true
        · rw [if_pos hterm]
          by_cases hact : env.activateOk hid = true
          · rw [if_pos hact]
            exact ⟨[Ev.queryHome, Ev.findById hid, Ev.activate hid], rfl⟩
          · rw [if_neg hact]
            obtain ⟨t', ht'⟩ := sft_default_terminal_trace env lu
              (tr ++ [Ev.queryHome, Ev.findById hid, Ev.activate hid])
            exact ⟨[Ev.queryHome, Ev.findById hid, Ev.activate hid] ++ t',
              by rw [ht', List.append_assoc]⟩
        · rw [if_neg hterm]
          obtain ⟨t', ht'⟩ := sft_default_terminal_trace env
            (clear_tc_context_window lu)
            (tr ++ [Ev.queryHome, Ev.findById hid, Ev.clearHome])
          exact ⟨[Ev.queryHome, Ev.findById hid, Ev.clearHome] ++ t',
            by rw [ht', List.append_assoc]⟩
      | none =>
        obtain ⟨t', ht'⟩ := sft_default_terminal_trace env
          (clear_tc_context_window lu)
          (tr ++ [Ev.queryHome, Ev.findById hid, Ev.clearHome])
        exact ⟨[Ev.queryHome, Ev.findById hid, Ev.clearHome] ++ t',
          by rw [ht', List.append_assoc]⟩

/-- `pyMaxByStarted` returns an element whose key dominates the running best
and every list element. -/
theorem pyMaxByStarted_le (l : List SessionInfo) (best : SessionInfo) :
    startedKey best ≤ startedKey (pyMaxByStarted best l)
    ∧ ∀ s ∈ l, startedKey s ≤ startedKey (pyMaxByStarted best l) := by
  induction l generalizing best with
  | nil => exact ⟨le_refl _, by simp⟩
  | cons s rest ih =>
    unfold pyMaxByStarted
    by_cases h : startedKey best < startedKey s
    · rw [if_pos h]
      refine ⟨le_trans (le_of_lt h) (ih s).1, ?_⟩
      intro s' hs'
      rcases List.mem_cons.mp hs' with h' | h'
      · rw [h']
        exact (ih s).1
      · exact (ih s).2 s' h'
    · rw [if_neg h]
      refine ⟨(ih best).1, ?_⟩
      intro s' hs'
      rcases List.mem_cons.mp hs' with h' | h'
      · rw [h']
        exact le_trans (not_lt.mp h) (ih best).1
      · exact (ih best).2 s' h'

/-- `_save_previous_window` stores the window id and its application name
under the two reserved keys. -/
theorem save_previous_window_get (lu : LastUsed) (w : WindowInfo) :
    get_last_used_window (save_previous_window lu w) "_previous_window"
        = some w.window_id
      ∧ get_last_used_window (save_previous_window lu w) "_previous_app"
        = some w.app_name := by
  constructor
  · show (if ("_previous_window" == "_previous_app") = true then some w.app_name
      else if ("_previous_window" == "_previous_window") = true
        then some w.window_id else lu "_previous_window") = some w.window_id
    rfl
  · show (if ("_previous_app" == "_previous_app") = true then some w.app_name
      else if ("_previous_app" == "_previous_window") = true
        then some w.window_id else lu "_previous_app") = some w.app_name
    rfl

/-- C1: on a hotkey press while the focused window is not terminal-like, the
orchestrator first records the current window as the previous window, then
queries the session registry; with at least one live session it immediately
tries to activate the window of the session with the latest `started_at` —
before any home-window, default-terminal or launch step — and on activation
success the chain short-circuits with exactly those three actions, leaving
the pressed-from window recorded as `_previous_window`. -/
theorem C1_session_priority (env : HotkeyEnv) (lu : LastUsed)
    (w : WindowInfo) (s : SessionInfo) (rest : List SessionInfo) (wid : String)
    (hw : env.activeWindow = some w)
    (hnt : is_terminal_window env w = false)
    (hsess : env.sessions = s :: rest)
    (hwid : (pyMaxByStarted s rest).window_id = some wid)
    (hne : wid ≠ "") :
    (∀ s' ∈ env.sessions, startedKey s' ≤ startedKey (pyMaxByStarted s rest))
    ∧ (terminal_callback env lu).2.2.take 3
        = [Ev.savePrev w.window_id w.app_name, Ev.querySessions,
           Ev.activate wid]
    ∧ (env.activateOk wid = true →
        terminal_callback env lu
          = (true, save_previous_window lu w,
             [Ev.savePrev w.window_id w.app_name, Ev.querySessions,
              Ev.activate wid]))
    ∧ get_last_used_window (save_previous_window lu w) "_previous_window"
        = some w.window_id := by
  have hcb : terminal_callback env lu
      = ((smart_focus_terminal env (save_previous_window lu w)).1,
         (smart_focus_terminal env (save_previous_window lu w)).2.1,
         Ev.savePrev w.window_id w.app_name
           :: (smart_focus_terminal env (save_previous_window lu w)).2.2) := by
    unfold terminal_callback
    rw [hw]
    dsimp only
    rw [if_neg (by simp [hnt])]
  have hsf : ∀ lu' : LastUsed, smart_focus_terminal env lu'
      = (if env.activateOk wid then
           (true, lu', [Ev.querySessions, Ev.activate wid])
         else sft_home_window env lu' [Ev.querySessions, Ev.activate wid]) := by
    intro lu'
    unfold smart_focus_terminal
    rw [hsess]
    dsimp only
    rw [hwid]
    dsimp only
    rw [if_pos (by simp [hne])]
  have hmax : ∀ s' ∈ env.sessions,
      startedKey s' ≤ startedKey (pyMaxByStarted s rest) := by
    intro s' hs'
    rw [hsess] at hs'
    rcases List.mem_cons.mp hs' with h' | h'
    · rw [h']
      exact (pyMaxByStarted_le rest s).1
    · exact (pyMaxByStarted_le rest s).2 s' h'
  refine ⟨hmax, ?_, ?_, (save_previous_window_get lu w).1⟩
  · by_cases hact : env.activateOk wid = true
    · rw [hcb, hsf, if_pos hact]
      rfl
    · rw [hcb, hsf, if_neg hact]
      obtain ⟨t', ht'⟩ := sft_home_window_trace env (save_previous_window lu w)
        [Ev.querySessions, Ev.activate wid]
      dsimp only
      rw [ht']
      show Ev.savePrev w.window_id w.app_name
          :: (([Ev.querySessions, Ev.activate wid] ++ t').take 2)
        = [Ev.savePrev w.window_id w.app_name, Ev.querySessions, Ev.activate wid]
      rw [show (2 : Nat) = [Ev.querySessions, Ev.activate wid].length from rfl,
        List.take_left]
  · intro hact
    rw [hcb, hsf, if_pos hact]

/-- The non-terminal window the user presses the hotkey from
(spec scenario window W9). -/
def w9 : WindowInfo :=
  { window_id := "W9", title := "Inbox", app_name := "Safari"
    is_active := true, is_minimized := false }

/-- Environment for the C1 scenario: focus on W9 (non-terminal), one live
session in window W1, activation always succeeds. -/
def envC1 : HotkeyEnv :=
  { activeWindow := some w9
    allWindows := [w9]
    findFast := fun _ => none
    activateOk := fun _ => true
    availableTerminals := ["t"]
    appConfigs := fun tid =>
      if tid == "t" then some { name := "iTerm2", type := "terminal" } else none
    appWindows := fun _ => []
    sessions := [session100]
    defaultTerminal := "t"
    rememberLastUsed := true
    terminalRunning := false
    launchOk := true }

/-- An empty `_last_used` store. -/
def lu0 : LastUsed := fun _ => none

/-- Closed witness for `C1_session_priority`: the spec scenario — session
`pid 100 / W1` registered, hotkey pressed on non-terminal W9 — activates W1
and records W9 as the previous window. -/
theorem C1_session_priority_witness :
    (∀ s' ∈ envC1.sessions,
        startedKey s' ≤ startedKey (pyMaxByStarted session100 []))
    ∧ (terminal_callback envC1 lu0).2.2.take 3
        = [Ev.savePrev "W9" "Safari", Ev.querySessions, Ev.activate "W1"]
    ∧ terminal_callback envC1 lu0
        = (true, save_previous_window lu0 w9,
           [Ev.savePrev "W9" "Safari", Ev.querySessions, Ev.activate "W1"])
    ∧ get_last_used_window (save_previous_window lu0 w9) "_previous_window"
        = some "W9" := by
  have h := C1_session_priority envC1 lu0 w9 session100 [] "W1"
    rfl rfl rfl rfl (by decide)
  exact ⟨h.1, h.2.1, h.2.2.1 rfl, h.2.2.2⟩

/-- When every activation succeeds, the active-candidate loop returns the
first active window of the list. -/
theorem try_active_windows_all_ok (env : HotkeyEnv)
    (hact : ∀ wid, env.activateOk wid = true) :
    ∀ (l : List WindowInfo) (tr : List Ev),
      try_active_windows env l tr
        = match l.find? (fun x => x.is_active) with
          | some w => (some w, tr ++ [Ev.activate w.window_id])
          | none => (none, tr) := by
  intro l
  induction l with
  | nil => intro tr; rfl
  | cons w rest ih =>
    intro tr
    unfold try_active_windows
    by_cases hA : w.is_active = true
    · rw [if_pos hA, if_pos (hact w.window_id),
        List.find?_cons_of_pos _ (by simpa using hA)]
    · rw [if_neg hA, ih, List.find?_cons_of_neg _ (by simpa using hA)]

/-- C6: when the hotkey fires on a terminal-like window and no previous
window is recorded, the orchestrator (with an always-succeeding activation
provider) scans the visible windows with terminal-like and minimized ones
excluded: if none remain it reports failure as a no-op; otherwise it
activates the first active candidate, else the first candidate, in either
case recording the activated window as the new previous window. -/
theorem C6_best_non_terminal (env : HotkeyEnv) (lu : LastUsed)
    (w : WindowInfo)
    (hw : env.activeWindow = some w)
    (ht : is_terminal_window env w = true)
    (hprev : get_last_used_window lu "_previous_window" = none)
    (hact : ∀ wid, env.activateOk wid = true) :
    (env.allWindows.filter
        (fun x => !is_terminal_window env x && !x.is_minimized) = [] →
      terminal_callback env lu = (false, lu, []))
    ∧ (∀ wa, (env.allWindows.filter
          (fun x => !is_terminal_window env x && !x.is_minimized)).find?
            (fun x => x.is_active) = some wa →
      terminal_callback env lu
        = (true, save_previous_window lu wa, [Ev.activate wa.window_id]))
    ∧ (∀ c0 rest, env.allWindows.filter
          (fun x => !is_terminal_window env x && !x.is_minimized) = c0 :: rest →
        (env.allWindows.filter
          (fun x => !is_terminal_window env x && !x.is_minimized)).find?
            (fun x => x.is_active) = none →
      terminal_callback env lu
        = (true, save_previous_window lu c0, [Ev.activate c0.window_id]))
    ∧ (∀ x : WindowInfo,
        get_last_used_window (save_previous_window lu x) "_previous_window"
          = some x.window_id) := by
  have hret : return_to_previous_window env lu = (false, lu, []) := by
    unfold return_to_previous_window
    rw [hprev]
  have hcb : terminal_callback env lu = find_best_non_terminal_window env lu := by
    unfold terminal_callback
    rw [hw]
    dsimp only
    rw [if_pos ht]
    unfold smart_return_from_terminal
    rw [hret]
    simp
  refine ⟨?_, ?_, ?_, fun x => (save_previous_window_get lu x).1⟩
  · intro hfil
    rw [hcb]
    unfold find_best_non_terminal_window
    rw [hfil]
  · intro wa hfind
    rw [hcb]
    unfold find_best_non_terminal_window
    cases hfil : env.allWindows.filter
        (fun x => !is_terminal_window env x && !x.is_minimized) with
    | nil =>
      rw [hfil] at hfind
      exact absurd hfind (by simp)
    | cons c0 rest =>
      rw [hfil] at hfind
      dsimp only
      rw [try_active_windows_all_ok env hact (c0 :: rest) [], hfind]
      simp
  · intro c0 rest hfil hfind
    rw [hcb]
    unfold find_best_non_terminal_window
    rw [hfil] at hfind
    rw [hfil]
    dsimp only
    rw [try_active_windows_all_ok env hact (c0 :: rest) [], hfind]
    dsimp only
    rw [if_pos (hact c0.window_id)]
    simp

/-- A terminal-like window (iTerm2). -/
def wTerm : WindowInfo :=
  { window_id := "T1", title := "zsh", app_name := "iTerm2"
    is_active := false, is_minimized := false }

/-- Environment for the C6 scenario: focus on the terminal window, no live
sessions, and one non-terminal active window (W9) visible. -/
def envC6 : HotkeyEnv :=
  { envC1 with
      activeWindow := some wTerm
      allWindows := [wTerm, w9]
      sessions := [] }

/-- Closed witness for `C6_best_non_terminal`: from the terminal with no
previous window recorded, the orchestrator activates the active non-terminal
window W9 and records it as the new previous window. -/
theorem C6_best_non_terminal_witness :
    terminal_callback envC6 lu0
        = (true, save_previous_window lu0 w9, [Ev.activate "W9"])
      ∧ get_last_used_window (save_previous_window lu0 w9) "_previous_window"
        = some "W9" := by
  have h := C6_best_non_terminal envC6 lu0 wTerm rfl rfl rfl (fun _ => rfl)
  exact ⟨h.2.1 w9 rfl, h.2.2.2 w9⟩

/-- The focus-most-recent fallback touches only the `appId` key of the
last-used store. -/
theorem focus_most_recent_fallback_preserves (env : HotkeyEnv)
    (lu : LastUsed) (appId k : String) (hk : (k == appId) = false) :
    (focus_most_recent_fallback env lu appId).2 k = lu k := by
  unfold focus_most_recent_fallback
  repeat' split
  all_goals simp [set_last_used_window, hk]

/-- `focus_most_recent_window` touches only the `appId` key of the
last-used store. -/
theorem focus_most_recent_window_preserves (env : HotkeyEnv)
    (lu : LastUsed) (appId k : String) (hk : (k == appId) = false) :
    (focus_most_recent_window env lu appId).2 k = lu k := by
  unfold focus_most_recent_window
  repeat' split
  all_goals first
    | rfl
    | exact focus_most_recent_fallback_preserves env lu appId k hk

/-- The default-terminal step touches only the default terminal's key of
the last-used store. -/
theorem sft_default_terminal_preserves (env : HotkeyEnv) (lu : LastUsed)
    (tr : List Ev) (k : String) (hk : (k == env.defaultTerminal) = false) :
    (sft_default_terminal env lu tr).2.1 k = lu k := by
  unfold sft_default_terminal
  repeat' split
  all_goals first
    | rfl
    | exact focus_most_recent_window_preserves env lu env.defaultTerminal k hk

/-- After `clear_tc_context_window` no home window is recorded. -/
theorem get_tc_context_window_clear (lu : LastUsed) :
    get_tc_context_window (clear_tc_context_window lu) = none := by
  unfold get_tc_context_window clear_tc_context_window
  by_cases h : (lu "_tc_context_window").isSome = true
  · rw [if_pos h]
    simp
  · rw [if_neg h]
    exact Option.not_isSome_iff_eq_none.mp h

/-- C7: in the focus-terminal path with no live session and a recorded home
window id — if the referenced window still exists and is terminal-like the
orchestrator activates it (short-circuiting on success), and if the window
no longer exists the recorded home id is cleared and stays cleared in the
final state. -/
theorem C7_home_window (env : HotkeyEnv) (lu : LastUsed) (hid : String)
    (hsess : env.sessions = [])
    (hhome : get_tc_context_window lu = some hid)
    (hne : hid ≠ "") :
    (∀ w, find_window_by_id env hid = some w →
        is_terminal_window env w = true →
        env.activateOk hid = true →
      smart_focus_terminal env lu
        = (true, lu, [Ev.querySessions, Ev.queryHome, Ev.findById hid,
                      Ev.activate hid]))
    ∧ (∀ w, find_window_by_id env hid = some w →
        is_terminal_window env w = true →
        Ev.activate hid ∈ (smart_focus_terminal env lu).2.2)
    ∧ (find_window_by_id env hid = none →
        Ev.clearHome ∈ (smart_focus_terminal env lu).2.2
        ∧ ((("_tc_context_window" : String) == env.defaultTerminal) = false →
            get_tc_context_window (smart_focus_terminal env lu).2.1 = none)) := by
  have hsf2 : smart_focus_terminal env lu
      = (match find_window_by_id env hid with
         | some w =>
           if is_terminal_window env w then
             if env.activateOk hid then
               (true, lu, [Ev.querySessions, Ev.queryHome, Ev.findById hid,
                           Ev.activate hid])
             else
               sft_default_terminal env lu
                 [Ev.querySessions, Ev.queryHome, Ev.findById hid,
                  Ev.activate hid]
           else
             sft_default_terminal env (clear_tc_context_window lu)
               [Ev.querySessions, Ev.queryHome, Ev.findById hid, Ev.clearHome]
         | none =>
           sft_default_terminal env (clear_tc_context_window lu)
             [Ev.querySessions, Ev.queryHome, Ev.findById hid,
              Ev.clearHome]) := by
    unfold smart_focus_terminal
    rw [hsess]
    dsimp only
    unfold sft_home_window
    rw [hhome]
    dsimp only
    rw [if_neg (by simp [hne])]
    rfl
  refine ⟨?_, ?_, ?_⟩
  · intro w hf hterm hact
    rw [hsf2, hf]
    dsimp only
    rw [if_pos hterm, if_pos hact]
  · intro w hf hterm
    rw [hsf2, hf]
    dsimp only
    rw [if_pos hterm]
    by_cases hact : env.activateOk hid = true
    · rw [if_pos hact]
      simp
    · rw [if_neg hact]
      obtain ⟨t', ht'⟩ := sft_default_terminal_trace env lu
        [Ev.querySessions, Ev.queryHome, Ev.findById hid, Ev.activate hid]
      rw [ht']
      simp
  · intro hf
    rw [hsf2, hf]
    constructor
    · obtain ⟨t', ht'⟩ := sft_default_terminal_trace env
        (clear_tc_context_window lu)
        [Ev.querySessions, Ev.queryHome, Ev.findById hid, Ev.clearHome]
      rw [ht']
      simp
    · intro hk
      have hpres := sft_default_terminal_preserves env
        (clear_tc_context_window lu)
        [Ev.querySessions, Ev.queryHome, Ev.findById hid, Ev.clearHome]
        "_tc_context_window" hk
      show (sft_default_terminal env (clear_tc_context_window lu)
        [Ev.querySessions, Ev.queryHome, Ev.findById hid,
         Ev.clearHome]).2.1 "_tc_context_window" = none
      rw [hpres]
      exact get_tc_context_window_clear lu

/-- The home terminal window of the C7 scenario (spec window W2). -/
def wTerm2 : WindowInfo :=
  { window_id := "W2", title := "zsh", app_name := "iTerm2"
    is_active := false, is_minimized := false }

/-- A last-used store recording home window W2. -/
def lu7 : LastUsed :=
  fun k => if k == "_tc_context_window" then some "W2" else none

/-- Environment for the C7 activate scenario: no sessions, W2 still exists
and is terminal-like. -/
def envC7a : HotkeyEnv :=
  { envC1 with
      sessions := []
      findFast := fun wid => if wid == "W2" then some wTerm2 else none }

/-- Environment for the C7 clear scenario: no sessions, W2 gone. -/
def envC7b : HotkeyEnv :=
  { envC1 with sessions := [] }

/-- Closed witness for `C7_home_window`: with home window W2 recorded, the
orchestrator activates W2 when it still exists and is terminal-like, and
clears the record when W2 no longer exists. -/
theorem C7_home_window_witness :
    smart_focus_terminal envC7a lu7
        = (true, lu7, [Ev.querySessions, Ev.queryHome, Ev.findById "W2",
                       Ev.activate "W2"])
      ∧ Ev.clearHome ∈ (smart_focus_terminal envC7b lu7).2.2
      ∧ get_tc_context_window (smart_focus_terminal envC7b lu7).2.1 = none := by
  have ha := C7_home_window envC7a lu7 "W2" rfl rfl (by decide)
  have hb := (C7_home_window envC7b lu7 "W2" rfl rfl (by decide)).2.2 rfl
  exact ⟨ha.1 wTerm2 rfl rfl rfl, hb.1, hb.2 (by decide)⟩

/-- The same-application loop activates the first non-minimized window of
the application whose activation succeeds, stores its id under
`_previous_window`, and leaves the store untouched when every candidate
fails. -/
theorem try_same_app_window_spec (env : HotkeyEnv) (lu : LastUsed)
    (a : String) :
    ∀ (l : List WindowInfo) (tr : List Ev),
      (try_same_app_window env lu a l tr).1
          = (l.find? (fun x => x.app_name == a && !x.is_minimized
              && env.activateOk x.window_id)).isSome
      ∧ (∀ x, l.find? (fun x => x.app_name == a && !x.is_minimized
              && env.activateOk x.window_id) = some x →
          (try_same_app_window env lu a l tr).2.1
            = set_last_used_window lu "_previous_window" x.window_id)
      ∧ (l.find? (fun x => x.app_name == a && !x.is_minimized
              && env.activateOk x.window_id) = none →
          (try_same_app_window env lu a l tr).2.1 = lu) := by
  intro l
  induction l with
  | nil =>
    intro tr
    exact ⟨rfl, by simp, fun _ => rfl⟩
  | cons w rest ih =>
    intro tr
    unfold try_same_app_window
    by_cases h1 : (w.app_name == a && !w.is_minimized) = true
    · rw [if_pos h1]
      by_cases h2 : env.activateOk w.window_id = true
      · rw [if_pos h2]
        have hp : (w.app_name == a && !w.is_minimized
            && env.activateOk w.window_id) = true := by
          rw [Bool.and_eq_true]
          exact ⟨h1, h2⟩
        rw [List.find?_cons_of_pos _ (by simpa using hp)]
        refine ⟨rfl, ?_, by simp⟩
        intro x hx
        have hx' : w = x := by simpa using hx
        rw [hx']
      · rw [if_neg h2]
        have h2' : env.activateOk w.window_id = false := by
          revert h2
          cases env.activateOk w.window_id <;> simp
        have hp : ¬(w.app_name == a && !w.is_minimized
            && env.activateOk w.window_id) = true := by
          simp [h2']
        rw [List.find?_cons_of_neg _ (by simpa using hp)]
        exact ih (tr ++ [Ev.activate w.window_id])
    · rw [if_neg h1]
      have h1' : (w.app_name == a && !w.is_minimized) = false := by
        revert h1
        cases (w.app_name == a && !w.is_minimized) <;> simp
      have hp : ¬(w.app_name == a && !w.is_minimized
          && env.activateOk w.window_id) = true := by
        simp [h1']
      rw [List.find?_cons_of_neg _ (by simpa using hp)]
      exact ih tr

/-- C10: when the stored previous-window id no longer resolves to a live
window of the recorded application (`rtp_matched` is false), the
return-to-previous step succeeds exactly when some non-minimized window of
that application can be activated; it then activates the first such window
and overwrites `_previous_window` with its id, and it reports failure — with
the store untouched — only when every non-minimized window of the recorded
application fails to activate. -/
theorem C10_previous_app_fallback (env : HotkeyEnv) (lu : LastUsed)
    (prevId a : String)
    (hprev : get_last_used_window lu "_previous_window" = some prevId)
    (hpid : prevId ≠ "")
    (hpapp : get_last_used_window lu "_previous_app" = some a)
    (ha : a ≠ "")
    (hmismatch : rtp_matched env lu prevId = false) :
    (return_to_previous_window env lu).1
        = (env.allWindows.find? (fun x => x.app_name == a && !x.is_minimized
            && env.activateOk x.window_id)).isSome
    ∧ (∀ x, env.allWindows.find? (fun x => x.app_name == a && !x.is_minimized
            && env.activateOk x.window_id) = some x →
        (return_to_previous_window env lu).2.1
          = set_last_used_window lu "_previous_window" x.window_id)
    ∧ ((return_to_previous_window env lu).1 = false →
        (return_to_previous_window env lu).2.1 = lu
        ∧ ∀ x ∈ env.allWindows, x.app_name = a → x.is_minimized = false →
            env.activateOk x.window_id = false) := by
  have hred : return_to_previous_window env lu
      = try_same_app_window env lu a env.allWindows [] := by
    unfold return_to_previous_window
    rw [hprev]
    dsimp only
    rw [if_neg (by simp [hpid]), if_neg (by simp [hmismatch])]
    unfold return_to_previous_fallback
    rw [hpapp]
    dsimp only
    rw [if_neg (by simp [ha])]
  obtain ⟨h1, h2, h3⟩ := try_same_app_window_spec env lu a env.allWindows []
  refine ⟨by rw [hred]; exact h1, ?_, ?_⟩
  · intro x hx
    rw [hred]
    exact h2 x hx
  · intro hfail
    rw [hred] at hfail
    cases hfind : env.allWindows.find? (fun x => x.app_name == a
        && !x.is_minimized && env.activateOk x.window_id) with
    | some x =>
      rw [hfind] at h1
      rw [h1] at hfail
      exact absurd hfail (by simp)
    | none =>
      refine ⟨by rw [hred]; exact h3 hfind, ?_⟩
      intro x hx hxa hxm
      have hnp := List.find?_eq_none.mp hfind x hx
      simpa [hxa, hxm] using hnp

/-- A last-used store whose previous window W5 is stale but whose previous
application (Safari) is recorded. -/
def lu10 : LastUsed := fun k =>
  if k == "_previous_window" then some "W5"
  else if k == "_previous_app" then some "Safari" else none

/-- Environment for the C10 scenario: window W5 is gone; Safari still has
the non-minimized window W9. -/
def envC10 : HotkeyEnv :=
  { envC1 with sessions := [], allWindows := [w9] }

/-- Closed witness for `C10_previous_app_fallback`: the stale id W5 does not
resolve, yet the step activates Safari's window W9 and overwrites the stored
previous-window id with W9. -/
theorem C10_previous_app_fallback_witness :
    (return_to_previous_window envC10 lu10).1 = true
      ∧ (return_to_previous_window envC10 lu10).2.1
        = set_last_used_window lu10 "_previous_window" "W9" := by
  have h := C10_previous_app_fallback envC10 lu10 "W5" "Safari"
    rfl (by decide) rfl (by decide) rfl
  refine ⟨?_, ?_⟩
  · rw [h.1]
    rfl
  · exact h.2.1 w9 rfl

end TC
